import Mathlib

/-!
# Verification of geojson-pydantic models

A shallow embedding, in Lean 4, of the parts of the `geojson-pydantic`
library relevant to its specification: the geometry models and their WKT
rendering (`geojson_pydantic/geometries.py`), the bounding-box validators
(`geojson_pydantic/base.py` and `geojson_pydantic/types.py`), the `Feature`
model (`geojson_pydantic/features.py`) and the JSON-mode serializer
(`geojson_pydantic/base.py`).

Conventions of the embedding:
* Python strings are modelled as `List Char` (`Str`), so that substring
  reasoning is ordinary list reasoning.
* Python floats are modelled as rationals `ℚ`; the textual rendering of a
  number (`str(number)` in Python) is modelled by `ratStr`, a concrete
  rendering whose output uses only digits and the signs `-` and `/`.  The
  claims under study depend only on which characters can occur, never on the
  digit-level format.
* `pydantic` validation is modelled as explicit `Except`-returning parse
  functions; field/type validation (e.g. `conlist` arity) runs before
  `@validator` hooks, as pydantic does.
-/

namespace GeojsonPydantic

/-- Python strings, modelled as lists of characters. -/
abbrev Str := List Char

/-- A GeoJSON position: a Python tuple of numbers.  After validation its
length is 2 or 3, but the model functions are total on any list. -/
abbrev Position := List ℚ

/-- `sep.join(xs)` from Python: interleave `sep` between the elements. -/
def joinSep (sep : Str) : List Str → Str
  | [] => []
  | [x] => x
  | x :: y :: xs => x ++ sep ++ joinSep sep (y :: xs)

/-- The character for a decimal digit `d < 10` (code 48 + d). -/
def digitChar (d : Nat) : Char := Char.ofNat (48 + d)

/-- Fuel-driven decimal rendering of a natural number, most significant
digit first; `acc` holds the already-rendered low digits. -/
def natStrGo : Nat → Nat → Str → Str
  | 0, _, acc => acc
  | fuel + 1, n, acc =>
    if n < 10 then digitChar (n % 10) :: acc
    else natStrGo fuel (n / 10) (digitChar (n % 10) :: acc)

/-- Decimal rendering of a natural number. -/
def natStr (n : Nat) : Str := natStrGo (n + 1) n []

/-- Rendering of an integer: a leading `-` for negatives. -/
def intStr (i : Int) : Str :=
  if i < 0 then '-' :: natStr i.natAbs else natStr i.natAbs

/-- Rendering of a rational, standing in for Python `str(number)`: the
numerator, then `/den` when the denominator is not 1. -/
def ratStr (q : ℚ) : Str :=
  if q.den = 1 then intStr q.num else intStr q.num ++ '/' :: natStr q.den

/-! ## WKT helpers (`geometries.py`, lines 38-66) -/

/-- `_position_wkt_coordinates`: `" ".join(str(number) for number in position)`. -/
def position_wkt_coordinates (position : Position) : Str :=
  joinSep " ".data (position.map ratStr)

/-- `_position_has_z`: `len(position) == 3`. -/
def position_has_z (position : Position) : Bool :=
  position.length == 3

/-- `_position_list_wkt_coordinates`: `", ".join(...)` over the positions. -/
def position_list_wkt_coordinates (positions : List Position) : Str :=
  joinSep ", ".data (positions.map position_wkt_coordinates)

/-- `_position_list_has_z`: any position of the list has a Z. -/
def position_list_has_z (positions : List Position) : Bool :=
  positions.any position_has_z

/-- `_lines_wtk_coordinates`: `", ".join(f"({...})" for line in lines)`
(the source function name carries this spelling). -/
def lines_wtk_coordinates (lines : List (List Position)) : Str :=
  joinSep ", ".data (lines.map fun line =>
    '(' :: position_list_wkt_coordinates line ++ [')'])

/-- `_lines_has_z`: any position of any line has a Z. -/
def lines_has_z (lines : List (List Position)) : Bool :=
  lines.any fun positions => positions.any position_has_z

/-! ## The six non-collection geometry models -/

/-- The six concrete geometry models of `geometries.py` (`Point`,
`MultiPoint`, `LineString`, `MultiLineString`, `Polygon`, `MultiPolygon`),
each carrying its `coordinates` field. -/
inductive Geometry
  | point (coordinates : Position)
  | multiPoint (coordinates : List Position)
  | lineString (coordinates : List Position)
  | multiLineString (coordinates : List (List Position))
  | polygon (coordinates : List (List Position))
  | multiPolygon (coordinates : List (List (List Position)))
deriving DecidableEq

namespace Geometry

/-- The `type` literal of each model (`"Point"`, `"MultiPoint"`, ...). -/
def typeField : Geometry → Str
  | .point _ => "Point".data
  | .multiPoint _ => "MultiPoint".data
  | .lineString _ => "LineString".data
  | .multiLineString _ => "MultiLineString".data
  | .polygon _ => "Polygon".data
  | .multiPolygon _ => "MultiPolygon".data

/-- Python `str.upper` on our string model. -/
def upperStr (s : Str) : Str := s.map Char.toUpper

/-- `_GeometryBase._wkt_type`: `self.type.upper()`. -/
def wkt_type (g : Geometry) : Str := upperStr g.typeField

/-- Each model's `has_z` property, dispatching to the module helpers
exactly as the source does. -/
def has_z : Geometry → Bool
  | .point c => position_has_z c
  | .multiPoint c => position_list_has_z c
  | .lineString c => position_list_has_z c
  | .multiLineString c => lines_has_z c
  | .polygon c => lines_has_z c
  | .multiPolygon c => c.any lines_has_z

/-- Each model's `_wkt_coordinates` property.  `MultiPolygon` joins its
sub-polygons with a bare `","` (no space), as in the source. -/
def wkt_coordinates : Geometry → Str
  | .point c => position_wkt_coordinates c
  | .multiPoint c => position_list_wkt_coordinates c
  | .lineString c => position_list_wkt_coordinates c
  | .multiLineString c => lines_wtk_coordinates c
  | .polygon c => lines_wtk_coordinates c
  | .multiPolygon c =>
      joinSep ",".data (c.map fun polygon =>
        '(' :: lines_wtk_coordinates polygon ++ [')'])

/-- Python truthiness of the `coordinates` container (`if self.coordinates:`):
a tuple or list is truthy iff non-empty. -/
def coordinatesTruthy : Geometry → Bool
  | .point c => !c.isEmpty
  | .multiPoint c => !c.isEmpty
  | .lineString c => !c.isEmpty
  | .multiLineString c => !c.isEmpty
  | .polygon c => !c.isEmpty
  | .multiPolygon c => !c.isEmpty

/-- `_GeometryBase.wkt` (lines 99-113): the type in upper case, then either
`" Z "`/`" "` plus the parenthesised coordinates, or `" EMPTY"`. -/
def wkt (g : Geometry) : Str :=
  g.wkt_type ++
    (if g.coordinatesTruthy then
      (if g.has_z then " Z ".data else " ".data) ++ '(' :: g.wkt_coordinates ++ [')']
    else
      " EMPTY".data)

end Geometry

/-! ## Polygon / MultiPolygon construction (`geometries.py`, lines 192-263)

Pydantic validates the declared field type first (`LinearRing =
conlist(Position, min_items=4)`, each `Position` a 2- or 3-tuple of
numbers); the `@validator("coordinates") check_closure` hook only runs when
that field validation succeeded. -/

/-- A value validates as a `Position` iff it is a 2- or 3-tuple. -/
def positionOk (p : Position) : Bool :=
  p.length == 2 || p.length == 3

/-- A value validates as a `LinearRing` (`conlist(Position, min_items=4)`)
iff it has at least 4 elements, all valid positions. -/
def ringValid (r : List Position) : Bool :=
  decide (4 ≤ r.length) && r.all positionOk

/-- Validation error classes for the polygon models: the declared-type
(arity) stage, and the `check_closure` validator stage. -/
inductive PolyError
  | arity
  | closure
deriving DecidableEq

/-- The per-ring closure tests built by `Polygon.check_closure`
(`[ring[-1] != ring[0] for ring in coordinates]`): `true` marks an open
ring. -/
def Polygon.closureChecks (coordinates : List (List Position)) : List Bool :=
  coordinates.map fun ring => !(ring.getLast? == ring.head?)

/-- `Polygon.check_closure` raises iff any ring is open
(`any([ring[-1] != ring[0] for ring in coordinates])`). -/
def Polygon.check_closure_raises (coordinates : List (List Position)) : Bool :=
  (Polygon.closureChecks coordinates).any id

/-- Construction of a `Polygon` from its `coordinates`: the declared-type
validation (each ring a `LinearRing`) runs first, then `check_closure`. -/
def Polygon.parse (coordinates : List (List Position)) :
    Except PolyError (List (List Position)) :=
  if coordinates.all ringValid then
    if Polygon.check_closure_raises coordinates then .error .closure
    else .ok coordinates
  else .error .arity

/-- The per-ring closure tests built by `MultiPolygon.check_closure`
(`[ring[-1] != ring[0] for polygon in coordinates for ring in polygon]`):
the rings of every sub-polygon, flattened. -/
def MultiPolygon.closureChecks (coordinates : List (List (List Position))) :
    List Bool :=
  (coordinates.map fun polygon =>
    polygon.map fun ring => !(ring.getLast? == ring.head?)).flatten

/-- `MultiPolygon.check_closure` raises iff any ring of any sub-polygon is
open. -/
def MultiPolygon.check_closure_raises
    (coordinates : List (List (List Position))) : Bool :=
  (MultiPolygon.closureChecks coordinates).any id

/-- Construction of a `MultiPolygon` from its `coordinates`: declared-type
validation of every ring of every sub-polygon first, then `check_closure`. -/
def MultiPolygon.parse (coordinates : List (List (List Position))) :
    Except PolyError (List (List (List Position))) :=
  if coordinates.all fun polygon => polygon.all ringValid then
    if MultiPolygon.check_closure_raises coordinates then .error .closure
    else .ok coordinates
  else .error .arity

/-! ## GeometryCollection (`geometries.py`, lines 287-334) -/

/-- The `GeometryCollection` model: a list of (non-collection) geometries,
per the `_Geometry` TypeVar bound. -/
structure GeometryCollection where
  geometries : List Geometry
deriving DecidableEq

namespace GeometryCollection

/-- `GeometryCollection._wkt_coordinates`: `", ".join(geom.wkt for geom in
self.geometries)`. -/
def wkt_coordinates (gc : GeometryCollection) : Str :=
  joinSep ", ".data (gc.geometries.map Geometry.wkt)

/-- `GeometryCollection.wkt` (lines 315-322): the upper-cased type, one
space, then the parenthesised joined member WKTs when that join is a
truthy (non-empty) string, else `"EMPTY"`.  No `" Z "` marker is ever
inserted. -/
def wkt (gc : GeometryCollection) : Str :=
  Geometry.upperStr "GeometryCollection".data ++ " ".data ++
    (if !gc.wkt_coordinates.isEmpty then '(' :: gc.wkt_coordinates ++ [')']
     else "EMPTY".data)

/-- Construction of a `GeometryCollection` from its member list.  The class
(lines 287-303) declares no validator hooks: construction always succeeds. -/
def construct (geometries : List Geometry) : Except String GeometryCollection :=
  .ok ⟨geometries⟩

/-- The `UserWarning`s emitted while constructing a `GeometryCollection`.
The class body (lines 287-334) contains no `warnings.warn` call (and no
validator at all), so none are ever emitted. -/
def constructWarnings (geometries : List Geometry) : List String :=
  match geometries with
  | _ => []

end GeometryCollection

/-! ## Geometry dispatch (`parse_geometry_obj`, lines 337-371)

The function inspects only the `"type"` entry of the input mapping to
decide the route, so the input is modelled by that entry: `none` when the
key is absent, `some t` when present with value `t`. -/

/-- The outcome of `parse_geometry_obj`'s dispatch on the `"type"` field:
an error for a missing key, an `Unknown type` error, or routing to the
named model's validator. -/
inductive GeomRoute
  | missingType
  | unknownType
  | routed (model : String)
deriving DecidableEq

/-- The dispatch of `parse_geometry_obj`: `Missing 'type' field` when the
key is absent, then one branch per handled type name, else `Unknown type`.
The source handles exactly six names; there is no `GeometryCollection`
branch. -/
def parse_geometry_obj (typeEntry : Option String) : GeomRoute :=
  match typeEntry with
  | none => .missingType
  | some t =>
    if t = "Point" then .routed "Point"
    else if t = "MultiPoint" then .routed "MultiPoint"
    else if t = "LineString" then .routed "LineString"
    else if t = "MultiLineString" then .routed "MultiLineString"
    else if t = "Polygon" then .routed "Polygon"
    else if t = "MultiPolygon" then .routed "MultiPolygon"
    else .unknownType

/-! ## Bounding-box validators

Two validators live in the source: the pydantic-v2 model-level validator
`_GeoJsonBase.validate_bbox` (`base.py`, lines 28-61), where a misordered X
axis only warns, and the pydantic-v1 type-level validator
`_BBoxBase.validate_bbox` (`types.py`, lines 22-43), where a misordered X
axis is an error.  Both receive a list already constrained to length 4 or 6
by the surrounding type. -/

/-- The outcome of a bbox validation: the warnings emitted and the error
messages collected (the model raises iff `errors` is non-empty). -/
structure BboxOutcome where
  warnings : List String
  errors : List String
deriving DecidableEq

/-- `_GeoJsonBase.validate_bbox` (`base.py`): `none` validates; otherwise X
misorder warns ("BBOX crossing the Antimeridian line"), Y misorder is an
error, and Z misorder (6-element boxes) is an error. -/
def base_validate_bbox (bbox : Option (List ℚ)) : BboxOutcome :=
  match bbox with
  | none => ⟨[], []⟩
  | some b =>
    let offset := b.length / 2
    ⟨if b.getD offset 0 < b.getD 0 0 then
        ["BBOX crossing the Antimeridian line, Min X > Max X."]
      else [],
     (if b.getD (1 + offset) 0 < b.getD 1 0 then
        ["Min Y must be <= Max Y."]
      else []) ++
     (if 2 < offset ∧ b.getD (2 + offset) 0 < b.getD 2 0 then
        ["Min Z must be <= Max Z."]
      else [])⟩

/-- `_BBoxBase.validate_bbox` (`types.py`): the error messages collected;
the validator raises iff the list is non-empty.  Unlike `base.py`, a
misordered X axis is collected as an error here. -/
def types_validate_bbox (bbox : List ℚ) : List String :=
  if bbox.isEmpty then []
  else
    let offset := bbox.length / 2
    (if bbox.getD offset 0 < bbox.getD 0 0 then
      ["Min X must be <= Max X."]
     else []) ++
    (if bbox.getD (1 + offset) 0 < bbox.getD 1 0 then
      ["Min Y must be <= Max Y."]
     else []) ++
    (if 2 < offset ∧ bbox.getD (2 + offset) 0 < bbox.getD 2 0 then
      ["Min Z must be <= Max Z."]
     else [])

/-! ## JSON-like values

Python values flowing through validation and serialization: JSON scalars
and containers, plus `.model`, an embedded (non-serialized) geometry model
object, as stored by `GeometryCollection.__geo_interface__`. -/

/-- A Python value: JSON scalars and containers, and raw geometry model
objects. -/
inductive JValue
  | null
  | bool (b : Bool)
  | int (n : Int)
  | float (q : ℚ)
  | str (s : String)
  | arr (items : List JValue)
  | obj (entries : List (String × JValue))
  | model (g : Geometry)

/-- Python `value is None` on a `JValue`. -/
def JValue.isNull : JValue → Bool
  | .null => true
  | _ => false

/-! ## Feature construction (`features.py`, lines 15-34)

The v1 `Feature` model declares

* `type: str = Field(default="Feature", const=True)`
* `geometry: Optional[Geom] = None`
* `properties: Optional[Props] = None`
* `id: Optional[str] = None`

Every field has a default, so an absent key falls back to it.  The input is
modelled field-by-field, `none` marking an absent key; geometry and
properties inputs are already-validated values (`some none` is an explicit
JSON `null`). -/

/-- The input mapping for `Feature` construction: `none` = key absent. -/
structure FeatureInput where
  typeEntry : Option String := none
  geometry : Option (Option Geometry) := none
  properties : Option (Option (List (String × JValue))) := none
  idEntry : Option JValue := none

/-- The constructed `Feature` model instance. -/
structure Feature where
  type : String
  geometry : Option Geometry
  properties : Option (List (String × JValue))
  id : Option String

/-- pydantic-v1 `str` field validation: strings pass through; `bool`,
`int`, `float` (and `Decimal`) are coerced with Python `str(...)`; other
values fail.  (`bool` is an `int` instance in Python, so `True` coerces to
`"True"`.)  The digit-level rendering of numbers is immaterial here. -/
def str_validator : JValue → Except String String
  | .str s => .ok s
  | .bool b => .ok (if b then "True" else "False")
  | .int n => .ok (toString n)
  | .float q => .ok (toString q)
  | _ => .error "str type expected"

/-- Validation of the `id: Optional[str] = None` field: an absent key or an
explicit `null` gives `None`; any other value goes through the v1 `str`
coercion. -/
def validate_id (idEntry : Option JValue) : Except String (Option String) :=
  match idEntry with
  | none => .ok none
  | some .null => .ok none
  | some v => (str_validator v).map some

/-- Construction of a `Feature` from an input mapping, per the v1 model:
each absent key takes its declared default (`type="Feature"`,
`geometry=None`, `properties=None`, `id=None`); a present `type` must equal
`"Feature"` (`const=True`); `id` goes through `str` validation. -/
def Feature.parse (inp : FeatureInput) : Except String Feature :=
  let t := inp.typeEntry.getD "Feature"
  if t ≠ "Feature" then .error "unexpected value; permitted: Feature"
  else
    match validate_id inp.idEntry with
    | .error e => .error e
    | .ok idv =>
      .ok ⟨t, inp.geometry.getD none, inp.properties.getD none, idv⟩

/-! ## JSON-mode serialization (`base.py`, lines 65-83) -/

/-- `_GeoJsonBase.clean_model`: the wrapped serializer's output `data`,
with every field of `__geojson_exclude_if_none__` whose value is `null`
removed — but only in JSON mode. -/
def clean_model (excludeIfNone : List String) (jsonMode : Bool)
    (data : List (String × JValue)) : List (String × JValue) :=
  if jsonMode then
    data.filter fun kv => !(excludeIfNone.contains kv.1 && kv.2.isNull)
  else data

/-- A model carrying a `bbox` field plus its remaining fields, as handed to
the serializer. -/
structure BboxModel where
  bbox : Option (List ℚ)
  otherFields : List (String × JValue)

/-- The serialized form of the `bbox` field: `null` or the number list. -/
def bboxToJson : Option (List ℚ) → JValue
  | none => .null
  | some b => .arr (b.map .float)

/-- `model_dump` of a `_GeoJsonBase` model: the wrapped serializer emits
every field (a `bbox` entry always included, `null` when the value is
`None`), then `clean_model` post-processes with
`__geojson_exclude_if_none__ = {"bbox"}`. -/
def model_dump (m : BboxModel) (jsonMode : Bool) : List (String × JValue) :=
  clean_model ["bbox"] jsonMode (("bbox", bboxToJson m.bbox) :: m.otherFields)

/-! ## `__geo_interface__` (`geometries.py`, lines 75-81 and 324-334) -/

/-- The serialized coordinates of a geometry, as stored by the base
`__geo_interface__`. -/
def Geometry.coordinatesJson : Geometry → JValue
  | .point c => .arr (c.map .float)
  | .multiPoint c => .arr (c.map fun p => .arr (p.map .float))
  | .lineString c => .arr (c.map fun p => .arr (p.map .float))
  | .multiLineString c =>
      .arr (c.map fun l => .arr (l.map fun p => .arr (p.map .float)))
  | .polygon c =>
      .arr (c.map fun l => .arr (l.map fun p => .arr (p.map .float)))
  | .multiPolygon c =>
      .arr (c.map fun poly =>
        .arr (poly.map fun l => .arr (l.map fun p => .arr (p.map .float))))

/-- `_GeometryBase.__geo_interface__`: `{"type": self.type, "coordinates":
self.coordinates}`. -/
def Geometry.geo_interface (g : Geometry) : JValue :=
  .obj [("type", .str (String.mk g.typeField)),
        ("coordinates", g.coordinatesJson)]

/-- The local `geometries` list that `GeometryCollection.__geo_interface__`
builds: the members' `__geo_interface__` mappings. -/
def GeometryCollection.built_geo_interfaces (gc : GeometryCollection) :
    List JValue :=
  gc.geometries.map Geometry.geo_interface

/-- `GeometryCollection.__geo_interface__` (lines 324-334): although the
method builds the per-member list (`GeometryCollection.built_geo_interfaces`),
its return statement is `{"type": self.type, "geometries": self.geometries}`
— the raw member model objects, not the built list. -/
def GeometryCollection.geo_interface (gc : GeometryCollection) : JValue :=
  .obj [("type", .str "GeometryCollection"),
        ("geometries", .arr (gc.geometries.map JValue.model))]

/-- The keys of an object value, in order. -/
def JValue.objKeys : JValue → Option (List String)
  | .obj entries => some (entries.map Prod.fst)
  | _ => none

/-- Lookup of a key in an object value. -/
def JValue.objLookup (k : String) : JValue → Option JValue
  | .obj entries => entries.lookup k
  | _ => none

/-! ## Supporting lemmas -/

/-- Every character that can appear in WKT output after the type name:
digits and number signs, the coordinate separators, parentheses, and the
`Z` marker. -/
def allowedChars : Str := "0123456789-/ ,()Z".data

theorem digitChar_mem_allowed {d : Nat} (h : d < 10) :
    digitChar d ∈ allowedChars := by
  interval_cases d <;> decide

theorem natStrGo_chars (fuel : Nat) : ∀ (n : Nat) (acc : Str),
    (∀ c ∈ acc, c ∈ allowedChars) → ∀ c ∈ natStrGo fuel n acc, c ∈ allowedChars := by
  induction fuel with
  | zero => intro n acc hacc; simpa [natStrGo] using hacc
  | succ fuel ih =>
    intro n acc hacc c hc
    rw [natStrGo] at hc
    split at hc
    · rcases List.mem_cons.mp hc with rfl | hmem
      · exact digitChar_mem_allowed (Nat.mod_lt _ (by omega))
      · exact hacc c hmem
    · refine ih (n / 10) _ ?_ c hc
      intro d hd
      rcases List.mem_cons.mp hd with rfl | hmem
      · exact digitChar_mem_allowed (Nat.mod_lt _ (by omega))
      · exact hacc d hmem

theorem natStr_chars (n : Nat) : ∀ c ∈ natStr n, c ∈ allowedChars :=
  natStrGo_chars _ _ _ (by simp)

theorem intStr_chars (i : Int) : ∀ c ∈ intStr i, c ∈ allowedChars := by
  intro c hc
  rw [intStr] at hc
  split at hc
  · rcases List.mem_cons.mp hc with rfl | hmem
    · decide
    · exact natStr_chars _ c hmem
  · exact natStr_chars _ c hc

theorem ratStr_chars (q : ℚ) : ∀ c ∈ ratStr q, c ∈ allowedChars := by
  intro c hc
  rw [ratStr] at hc
  split at hc
  · exact intStr_chars _ c hc
  · rcases List.mem_append.mp hc with hmem | hmem
    · exact intStr_chars _ c hmem
    · rcases List.mem_cons.mp hmem with rfl | hmem
      · decide
      · exact natStr_chars _ c hmem

theorem joinSep_chars {P : Char → Prop} (sep : Str) (l : List Str)
    (hsep : ∀ c ∈ sep, P c) (hl : ∀ s ∈ l, ∀ c ∈ s, P c) :
    ∀ c ∈ joinSep sep l, P c := by
  induction l with
  | nil => simp [joinSep]
  | cons x xs ih =>
    cases xs with
    | nil => simpa [joinSep] using hl x (by simp)
    | cons y ys =>
      intro c hc
      rw [joinSep] at hc
      rcases List.mem_append.mp hc with hxs | hmem
      · rcases List.mem_append.mp hxs with hmem | hmem
        · exact hl x (by simp) c hmem
        · exact hsep c hmem
      · exact ih (fun s hs => hl s (List.mem_cons_of_mem _ hs)) c hmem

theorem position_wkt_chars (p : Position) :
    ∀ c ∈ position_wkt_coordinates p, c ∈ allowedChars := by
  refine joinSep_chars _ _ (by decide) ?_
  intro s hs
  rcases List.mem_map.mp hs with ⟨q, _, rfl⟩
  exact ratStr_chars q

theorem position_list_wkt_chars (ps : List Position) :
    ∀ c ∈ position_list_wkt_coordinates ps, c ∈ allowedChars := by
  refine joinSep_chars _ _ (by decide) ?_
  intro s hs
  rcases List.mem_map.mp hs with ⟨p, _, rfl⟩
  exact position_wkt_chars p

theorem lines_wtk_chars (lines : List (List Position)) :
    ∀ c ∈ lines_wtk_coordinates lines, c ∈ allowedChars := by
  refine joinSep_chars _ _ (by decide) ?_
  intro s hs c hc
  rcases List.mem_map.mp hs with ⟨l, _, rfl⟩
  rcases List.mem_cons.mp hc with rfl | hmem
  · decide
  · rcases List.mem_append.mp hmem with hmem | hmem
    · exact position_list_wkt_chars l c hmem
    · rcases List.mem_singleton.mp hmem with rfl
      decide

theorem wkt_coordinates_chars (g : Geometry) :
    ∀ c ∈ g.wkt_coordinates, c ∈ allowedChars := by
  cases g with
  | point c => exact position_wkt_chars c
  | multiPoint c => exact position_list_wkt_chars c
  | lineString c => exact position_list_wkt_chars c
  | multiLineString c => exact lines_wtk_chars c
  | polygon c => exact lines_wtk_chars c
  | multiPolygon c =>
    refine joinSep_chars _ _ (by decide) ?_
    intro s hs ch hc
    rcases List.mem_map.mp hs with ⟨poly, _, rfl⟩
    rcases List.mem_cons.mp hc with rfl | hmem
    · decide
    · rcases List.mem_append.mp hmem with hmem | hmem
      · exact lines_wtk_chars poly ch hmem
      · rcases List.mem_singleton.mp hmem with rfl
        decide

theorem wkt_chars (g : Geometry) (h : g.coordinatesTruthy = true) :
    ∀ c ∈ g.wkt, c ∈ g.wkt_type ∨ c ∈ allowedChars := by
  intro c hc
  rw [Geometry.wkt, h, if_pos rfl] at hc
  rcases List.mem_append.mp hc with hmem | hrest
  · exact Or.inl hmem
  · right
    rcases List.mem_append.mp hrest with hmem | hmem
    · rcases List.mem_append.mp hmem with hsep | hcons
      · split at hsep
        · exact (by decide : ∀ c ∈ " Z ".data, c ∈ allowedChars) c hsep
        · exact (by decide : ∀ c ∈ " ".data, c ∈ allowedChars) c hsep
      · rcases List.mem_cons.mp hcons with rfl | hmem
        · decide
        · exact wkt_coordinates_chars g c hmem
    · rcases List.mem_singleton.mp hmem with rfl
      decide

theorem any_map_id {α : Type} (f : α → Bool) (l : List α) :
    (l.map f).any id = l.any f := by
  induction l with
  | nil => rfl
  | cons x xs ih => simp [ih]

theorem polygon_check_raises_eq (cs : List (List Position)) :
    Polygon.check_closure_raises cs =
      !cs.all fun r => r.getLast? == r.head? := by
  rw [Polygon.check_closure_raises, Polygon.closureChecks, any_map_id,
    List.all_eq_not_any_not, Bool.not_not]

theorem multipolygon_check_raises_eq (css : List (List (List Position))) :
    MultiPolygon.check_closure_raises css =
      !css.all fun p => p.all fun r => r.getLast? == r.head? := by
  induction css with
  | nil => rfl
  | cons p ps ih =>
    simp only [MultiPolygon.check_closure_raises, MultiPolygon.closureChecks,
      List.map_cons, List.flatten_cons, List.any_append, List.all_cons,
      Bool.not_and] at *
    rw [ih]
    congr 1
    rw [any_map_id, List.all_eq_not_any_not, Bool.not_not]

theorem short_ring_not_valid {r : List Position} (h : r.length < 4) :
    ringValid r = false := by
  simp [ringValid]
  intro h4
  omega

/-! ## The claims -/

/-- C2: For every non-collection geometry, `wkt` is the upper-cased type
tag followed by `" EMPTY"` when the coordinates container is empty, and
otherwise the tag, then `" Z "` if `has_z` (else a single space), then the
parenthesised coordinate text — and in that case the literal string
`"EMPTY"` never occurs anywhere in the output. -/
theorem geometry_wkt_spec (g : Geometry) :
    (g.coordinatesTruthy = false → g.wkt = g.wkt_type ++ " EMPTY".data)
    ∧ (g.coordinatesTruthy = true →
        g.wkt = g.wkt_type ++
            (if g.has_z then " Z ".data else " ".data) ++
            '(' :: g.wkt_coordinates ++ [')']
        ∧ ¬ "EMPTY".data <:+: g.wkt) := by
  constructor
  · intro h
    simp [Geometry.wkt, h]
  · intro h
    refine ⟨by simp [Geometry.wkt, h], ?_⟩
    intro hinf
    have hsub := hinf.subset
    cases g with
    | point c =>
      have hc := hsub (show 'E' ∈ "EMPTY".data by decide)
      rcases wkt_chars _ h _ hc with hl | hr
      · rw [show (Geometry.point c).wkt_type = "POINT".data from rfl] at hl
        exact absurd hl (by decide)
      · exact absurd hr (by decide)
    | multiPoint c =>
      have hc := hsub (show 'E' ∈ "EMPTY".data by decide)
      rcases wkt_chars _ h _ hc with hl | hr
      · rw [show (Geometry.multiPoint c).wkt_type = "MULTIPOINT".data from rfl] at hl
        exact absurd hl (by decide)
      · exact absurd hr (by decide)
    | lineString c =>
      have hc := hsub (show 'M' ∈ "EMPTY".data by decide)
      rcases wkt_chars _ h _ hc with hl | hr
      · rw [show (Geometry.lineString c).wkt_type = "LINESTRING".data from rfl] at hl
        exact absurd hl (by decide)
      · exact absurd hr (by decide)
    | multiLineString c =>
      have hc := hsub (show 'P' ∈ "EMPTY".data by decide)
      rcases wkt_chars _ h _ hc with hl | hr
      · rw [show (Geometry.multiLineString c).wkt_type = "MULTILINESTRING".data from rfl] at hl
        exact absurd hl (by decide)
      · exact absurd hr (by decide)
    | polygon c =>
      have hc := hsub (show 'E' ∈ "EMPTY".data by decide)
      rcases wkt_chars _ h _ hc with hl | hr
      · rw [show (Geometry.polygon c).wkt_type = "POLYGON".data from rfl] at hl
        exact absurd hl (by decide)
      · exact absurd hr (by decide)
    | multiPolygon c =>
      have hc := hsub (show 'E' ∈ "EMPTY".data by decide)
      rcases wkt_chars _ h _ hc with hl | hr
      · rw [show (Geometry.multiPolygon c).wkt_type = "MULTIPOLYGON".data from rfl] at hl
        exact absurd hl (by decide)
      · exact absurd hr (by decide)

/-- Witness for C2: an empty `MultiPoint` renders as `MULTIPOINT EMPTY`,
and a concrete 2D `Point` renders in the non-empty shape with no
`"EMPTY"` substring. -/
theorem geometry_wkt_spec_witness :
    Geometry.wkt (.multiPoint []) =
      Geometry.wkt_type (.multiPoint []) ++ " EMPTY".data
    ∧ (Geometry.wkt (.point [1, 2]) =
        Geometry.wkt_type (.point [1, 2]) ++
          (if Geometry.has_z (.point [1, 2]) then " Z ".data else " ".data) ++
          '(' :: Geometry.wkt_coordinates (.point [1, 2]) ++ [')']
      ∧ ¬ "EMPTY".data <:+: Geometry.wkt (.point [1, 2])) :=
  ⟨(geometry_wkt_spec (.multiPoint [])).1 rfl,
   (geometry_wkt_spec (.point [1, 2])).2 rfl⟩

/-- C1: For Polygon and MultiPolygon inputs whose rings all satisfy the
declared-type (arity) rule, construction succeeds iff every ring's first
position equals its last, and fails with a closure error if any ring is
open; a ring with fewer than 4 positions fails on arity (before any
closure check); and the closure test list has one entry per ring (for
MultiPolygon, per ring of every sub-polygon). -/
theorem polygon_ring_closure_spec
    (cs : List (List Position)) (css : List (List (List Position))) :
    (cs.all ringValid = true →
      ((Polygon.parse cs = .ok cs ↔
          (cs.all fun r => r.getLast? == r.head?) = true)
        ∧ ((cs.all fun r => r.getLast? == r.head?) = false →
            Polygon.parse cs = .error .closure)))
    ∧ ((css.all fun p => p.all ringValid) = true →
      ((MultiPolygon.parse css = .ok css ↔
          (css.all fun p => p.all fun r => r.getLast? == r.head?) = true)
        ∧ ((css.all fun p => p.all fun r => r.getLast? == r.head?) = false →
            MultiPolygon.parse css = .error .closure)))
    ∧ ((cs.any fun r => decide (r.length < 4)) = true →
        Polygon.parse cs = .error .arity)
    ∧ ((css.any fun p => p.any fun r => decide (r.length < 4)) = true →
        MultiPolygon.parse css = .error .arity)
    ∧ (Polygon.closureChecks cs).length = cs.length
    ∧ (MultiPolygon.closureChecks css).length = (css.map List.length).sum := by
  refine ⟨?_, ?_, ?_, ?_, ?_, ?_⟩
  · intro hv
    rw [Polygon.parse, if_pos hv, polygon_check_raises_eq]
    constructor
    · constructor
      · intro h
        by_contra hall
        rw [Bool.not_eq_true] at hall
        rw [hall] at h
        simp at h
      · intro h
        rw [h]
        simp
    · intro h
      rw [h]
      simp
  · intro hv
    rw [MultiPolygon.parse, if_pos hv, multipolygon_check_raises_eq]
    constructor
    · constructor
      · intro h
        by_contra hall
        rw [Bool.not_eq_true] at hall
        rw [hall] at h
        simp at h
      · intro h
        rw [h]
        simp
    · intro h
      rw [h]
      simp
  · intro h
    rcases List.any_eq_true.mp h with ⟨r, hr, hlen⟩
    have : cs.all ringValid = false := by
      rw [Bool.eq_false_iff]
      intro hall
      have := List.all_eq_true.mp hall r hr
      rw [short_ring_not_valid (by simpa using hlen)] at this
      exact Bool.false_ne_true this
    rw [Polygon.parse, if_neg (by rw [this]; exact Bool.false_ne_true)]
  · intro h
    rcases List.any_eq_true.mp h with ⟨p, hp, hany⟩
    rcases List.any_eq_true.mp hany with ⟨r, hr, hlen⟩
    have : (css.all fun p => p.all ringValid) = false := by
      rw [Bool.eq_false_iff]
      intro hall
      have := List.all_eq_true.mp (List.all_eq_true.mp hall p hp) r hr
      rw [short_ring_not_valid (by simpa using hlen)] at this
      exact Bool.false_ne_true this
    rw [MultiPolygon.parse, if_neg (by rw [this]; exact Bool.false_ne_true)]
  · simp [Polygon.closureChecks]
  · simp [MultiPolygon.closureChecks, Function.comp_def, List.length_map]

/-- Witness for C1 at concrete inputs: a closed valid ring parses, an open
valid ring fails on closure, a 1-position ring fails on arity, and a
MultiPolygon of one closed sub-polygon parses. -/
theorem polygon_ring_closure_spec_witness :
    Polygon.parse [[[0, 0], [1, 1], [2, 2], [0, 0]]] =
      .ok [[[0, 0], [1, 1], [2, 2], [0, 0]]]
    ∧ Polygon.parse [[[0, 0], [1, 1], [2, 2], [3, 3]]] = .error .closure
    ∧ Polygon.parse [[[0, 0]]] = .error .arity
    ∧ MultiPolygon.parse [[[[0, 0], [1, 1], [2, 2], [0, 0]]]] =
      .ok [[[[0, 0], [1, 1], [2, 2], [0, 0]]]] := by
  refine ⟨?_, ?_, ?_, ?_⟩
  · exact ((polygon_ring_closure_spec [[[0, 0], [1, 1], [2, 2], [0, 0]]] []).1
      (by decide)).1.mpr (by decide)
  · exact ((polygon_ring_closure_spec [[[0, 0], [1, 1], [2, 2], [3, 3]]] []).1
      (by decide)).2 (by decide)
  · exact (polygon_ring_closure_spec [[[0, 0]]] []).2.2.1 (by decide)
  · exact ((polygon_ring_closure_spec [] [[[[0, 0], [1, 1], [2, 2], [0, 0]]]]).2.1
      (by decide)).1.mpr (by decide)

/-- C3: On the antimeridian-crossing box `(100, 0, 0, 0)` (min X > max X),
the `types.py` validator collects a `Min X` error — validation fails —
while the `base.py` validator only warns and collects no error; misordered
Y (and Z) fail in both, and an absent bbox validates in `base.py`. -/
theorem bbox_x_misorder_eval :
    types_validate_bbox [100, 0, 0, 0] = ["Min X must be <= Max X."]
    ∧ base_validate_bbox (some [100, 0, 0, 0]) =
        ⟨["BBOX crossing the Antimeridian line, Min X > Max X."], []⟩
    ∧ types_validate_bbox [0, 100, 0, 0] = ["Min Y must be <= Max Y."]
    ∧ base_validate_bbox (some [0, 100, 0, 0]) =
        ⟨[], ["Min Y must be <= Max Y."]⟩
    ∧ base_validate_bbox (some [0, 0, 100, 0, 0, 0]) =
        ⟨[], ["Min Z must be <= Max Z."]⟩
    ∧ base_validate_bbox none = ⟨[], []⟩ := by
  refine ⟨by decide, by decide, by decide, by decide, by decide, rfl⟩

/-- C4: `parse_geometry_obj` dispatch — a missing `"type"` key errors, each
of the six non-collection names routes to its model, but
`"GeometryCollection"` falls through to the `Unknown type` error instead of
being routed, just like an arbitrary unknown name. -/
theorem parse_geometry_obj_dispatch_eval :
    parse_geometry_obj none = .missingType
    ∧ parse_geometry_obj (some "Point") = .routed "Point"
    ∧ parse_geometry_obj (some "MultiPoint") = .routed "MultiPoint"
    ∧ parse_geometry_obj (some "LineString") = .routed "LineString"
    ∧ parse_geometry_obj (some "MultiLineString") = .routed "MultiLineString"
    ∧ parse_geometry_obj (some "Polygon") = .routed "Polygon"
    ∧ parse_geometry_obj (some "MultiPolygon") = .routed "MultiPolygon"
    ∧ parse_geometry_obj (some "This type") = .unknownType
    ∧ parse_geometry_obj (some "GeometryCollection") = .unknownType := by
  refine ⟨rfl, by decide, by decide, by decide, by decide, by decide,
    by decide, by decide, by decide⟩

/-- C5: `GeometryCollection.wkt` on a collection holding one 3D point and
one 2D line string produces no `" Z "` marker after the type name (only a
single space), so it differs from the spec's expected rendering; the empty
collection renders as `GEOMETRYCOLLECTION EMPTY`. -/
theorem geometrycollection_wkt_no_z_eval :
    GeometryCollection.wkt ⟨[.point [0, 0, 0], .lineString [[0, 0], [1, 1]]]⟩ =
      "GEOMETRYCOLLECTION (POINT Z (0 0 0), LINESTRING (0 0, 1 1))".data
    ∧ GeometryCollection.wkt ⟨[.point [0, 0, 0], .lineString [[0, 0], [1, 1]]]⟩ ≠
      "GEOMETRYCOLLECTION Z (POINT Z (0 0 0), LINESTRING (0 0, 1 1))".data
    ∧ GeometryCollection.wkt ⟨[]⟩ = "GEOMETRYCOLLECTION EMPTY".data := by
  refine ⟨by decide, by decide, by decide⟩

/-- C6: constructing a `GeometryCollection` with exactly one member — or
with two members of the same type — succeeds and emits no warning at all:
the class declares no validator, so none of the discouraged shapes is
reported. -/
theorem geometrycollection_no_warnings_eval :
    GeometryCollection.construct [.point [0, 0, 0]] = .ok ⟨[.point [0, 0, 0]]⟩
    ∧ GeometryCollection.constructWarnings [.point [0, 0, 0]] = []
    ∧ GeometryCollection.constructWarnings [.point [0, 0, 0], .point [1, 1, 1]] =
        [] := by
  exact ⟨rfl, rfl, rfl⟩

/-- C7: `Feature` construction with `type`, `geometry` and `properties` all
omitted succeeds — every field of the v1 model has a default — yielding the
same model as explicit nulls; omission is not an error. -/
theorem feature_omitted_keys_eval :
    Feature.parse {} = .ok ⟨"Feature", none, none, none⟩
    ∧ Feature.parse ⟨some "Feature", some none, some none, none⟩ =
        .ok ⟨"Feature", none, none, none⟩
    ∧ Feature.parse ⟨none, some none, none, none⟩ =
        .ok ⟨"Feature", none, none, none⟩ := by
  exact ⟨rfl, rfl, rfl⟩

/-- C8: the v1 `id: Optional[str]` field coerces rather than rejects:
`True` validates to the string `"True"` and `1.0`-like floats to their
textual form, while integers and strings also pass ( integers as their
decimal string). -/
theorem feature_id_coercion_eval :
    Feature.parse ⟨some "Feature", some none, some none, some (.bool true)⟩ =
      .ok ⟨"Feature", none, none, some "True"⟩
    ∧ Feature.parse ⟨some "Feature", some none, some none,
        some (.float (3 / 2 : ℚ))⟩ =
      .ok ⟨"Feature", none, none, some (toString (3 / 2 : ℚ))⟩
    ∧ Feature.parse ⟨some "Feature", some none, some none, some (.int 1)⟩ =
      .ok ⟨"Feature", none, none, some (toString (1 : Int))⟩
    ∧ Feature.parse ⟨some "Feature", some none, some none, some (.str "a")⟩ =
      .ok ⟨"Feature", none, none, some "a"⟩ := by
  exact ⟨rfl, rfl, rfl, rfl⟩

theorem lookup_eq_none_of_not_mem_keys (k : String)
    (l : List (String × JValue)) (h : k ∉ l.map Prod.fst) :
    l.lookup k = none := by
  induction l with
  | nil => rfl
  | cons kv rest ih =>
    obtain ⟨k1, v1⟩ := kv
    simp only [List.map_cons, List.mem_cons] at h
    push_neg at h
    have hbeq : (k == k1) = false := by simpa using h.1
    simp only [List.lookup_cons, hbeq, Bool.false_eq_true, if_false]
    exact ih h.2

theorem keys_of_filter_subset (p : String × JValue → Bool) (k : String)
    (l : List (String × JValue)) (h : k ∉ l.map Prod.fst) :
    k ∉ (l.filter p).map Prod.fst := by
  intro hk
  rcases List.mem_map.mp hk with ⟨kv, hkv, rfl⟩
  exact h (List.mem_map.mpr ⟨kv, List.mem_of_mem_filter hkv, rfl⟩)

/-- C9: Serializing a model whose `bbox` is `None`: in JSON mode the output
has no `"bbox"` key at all, while the in-memory (python-mode) output maps
`"bbox"` to `null`; every other field with a non-null value is present
unchanged in both modes. -/
theorem bbox_dropped_when_null (m : BboxModel) (h : m.bbox = none)
    (hk : "bbox" ∉ m.otherFields.map Prod.fst) :
    (model_dump m true).lookup "bbox" = none
    ∧ (model_dump m false).lookup "bbox" = some JValue.null
    ∧ (∀ k v, (k, v) ∈ m.otherFields → v.isNull = false →
        ((k, v) ∈ model_dump m true ∧ (k, v) ∈ model_dump m false)) := by
  refine ⟨?_, ?_, ?_⟩
  · rw [model_dump, clean_model, if_pos rfl, h]
    rw [List.filter_cons, if_neg (by decide)]
    exact lookup_eq_none_of_not_mem_keys _ _
      (keys_of_filter_subset _ _ _ hk)
  · rw [model_dump, clean_model, h]
    simp [List.lookup_cons, bboxToJson]
  · intro k v hv hnull
    constructor
    · rw [model_dump, clean_model, if_pos rfl]
      refine List.mem_filter.mpr ⟨List.mem_cons_of_mem _ hv, ?_⟩
      simp [hnull]
    · rw [model_dump, clean_model]
      exact List.mem_cons_of_mem _ hv

/-- Witness for C9 at a concrete model with a null bbox and one non-null
field. -/
theorem bbox_dropped_when_null_witness :
    (model_dump ⟨none, [("type", .str "Feature")]⟩ true).lookup "bbox" = none
    ∧ (model_dump ⟨none, [("type", .str "Feature")]⟩ false).lookup "bbox" =
        some JValue.null
    ∧ ("type", JValue.str "Feature") ∈
        model_dump ⟨none, [("type", .str "Feature")]⟩ true := by
  refine ⟨(bbox_dropped_when_null _ rfl (by decide)).1,
    (bbox_dropped_when_null _ rfl (by decide)).2.1,
    ((bbox_dropped_when_null _ rfl (by decide)).2.2 "type" (.str "Feature")
      (List.mem_singleton.mpr rfl) rfl).1⟩

/-- C10: `GeometryCollection.__geo_interface__` returns a mapping with
exactly the keys `type` and `geometries`, where `type` is the collection's
tag and `geometries` holds the collection's own member model objects — and
(for a non-empty collection) that value is not the per-member
`__geo_interface__` list the method builds and then ignores. -/
theorem geometrycollection_geo_interface_spec (gc : GeometryCollection) :
    gc.geo_interface.objKeys = some ["type", "geometries"]
    ∧ gc.geo_interface.objLookup "type" = some (.str "GeometryCollection")
    ∧ gc.geo_interface.objLookup "geometries" =
        some (.arr (gc.geometries.map JValue.model))
    ∧ (gc.geometries ≠ [] →
        JValue.arr (gc.geometries.map JValue.model) ≠
          JValue.arr gc.built_geo_interfaces) := by
  refine ⟨rfl, rfl, ?_, ?_⟩
  · rw [GeometryCollection.geo_interface, JValue.objLookup]
    rfl
  · obtain ⟨gs⟩ := gc
    intro hne heq
    cases gs with
    | nil => exact hne rfl
    | cons g rest =>
      rw [GeometryCollection.built_geo_interfaces] at heq
      simp only [List.map_cons, JValue.arr.injEq, List.cons.injEq] at heq
      exact absurd heq.1 (by simp [Geometry.geo_interface])

/-- Witness for C10 at a one-point collection. -/
theorem geometrycollection_geo_interface_spec_witness :
    (GeometryCollection.geo_interface ⟨[.point [1, 2]]⟩).objKeys =
      some ["type", "geometries"]
    ∧ JValue.arr ((⟨[.point [1, 2]]⟩ : GeometryCollection).geometries.map
        JValue.model) ≠
      JValue.arr (GeometryCollection.built_geo_interfaces ⟨[.point [1, 2]]⟩) := by
  exact ⟨(geometrycollection_geo_interface_spec ⟨[.point [1, 2]]⟩).1,
    (geometrycollection_geo_interface_spec ⟨[.point [1, 2]]⟩).2.2.2
      (by simp)⟩

end GeojsonPydantic
